import Mathlib

/-!
Verification of the Z.ai provider adapter.

Shallow embedding of `src/crates/goose/src/providers/zai.rs` (the provider
adapter: request building, the batch POST helper, retry orchestration, the
streaming entry point, capability metadata) and of
`src/crates/goose-cli/src/commands/zai_configure.rs` (the masked API-key
display). Collaborators that live outside these two files
(`formats::anthropic::create_request`, `response_to_streaming_message`,
`ProviderRetry::with_retry`, `ModelConfig::with_fast`, `RequestLog`) are
modelled from the design document, as marked on each definition.
-/

/-- JSON values as built for request payloads (`serde_json::Value`, restricted
to the shapes the adapter constructs). Objects are ordered association lists. -/
inductive JVal where
  | str (s : String)
  | num (n : Nat)
  | bool (b : Bool)
  | arr (xs : List JVal)
  | obj (fields : List (String × JVal))
deriving Repr

/-- Field lookup in a JSON object: the first binding of the key, if any. -/
def objLookup (k : String) : List (String × JVal) → Option JVal
  | [] => none
  | (k2, v) :: rest => if k2 = k then some v else objLookup k rest

/-- `serde_json::Map::insert`: replace the value of an existing key in place,
otherwise append the binding at the end. -/
def objInsert (k : String) (v : JVal) : List (String × JVal) → List (String × JVal)
  | [] => [(k, v)]
  | (k2, v2) :: rest => if k2 = k then (k, v) :: rest else (k2, v2) :: objInsert k v rest

/-- Canonical message roles (spec section 3: role is user or assistant). -/
inductive Role where
  | user
  | assistant
deriving Repr, DecidableEq

/-- The vendor wire name of a role (spec section 4.1: the role mapping is
exhaustive over user and assistant). -/
def Role.toStr : Role → String
  | .user => "user"
  | .assistant => "assistant"

/-- A canonical message: its role and its text content, already concatenated
into one string per message (spec sections 3 and 4.1). -/
structure CMessage where
  role : Role
  text : String
deriving Repr, DecidableEq

/-- Modelled from the spec: `crate::model::ModelConfig` is outside the sources.
Per spec section 3 it carries the model identifier, the optional fast-model
alias and the context-window limit; per spec section 4.1 it can also override
the `max_tokens` default. -/
structure ModelConfig where
  modelName : String
  fast : Option String
  contextLimit : Nat
  maxTokens : Option Nat
deriving Repr, DecidableEq

/-- The provider error type as used by `zai.rs`: every error the adapter
builds there is `ProviderError::RequestFailed` with a message. -/
inductive ProviderError where
  | RequestFailed (msg : String)
deriving Repr, DecidableEq

/-- Token accounting (spec section 3: optional input, output and total
counts). -/
structure Usage where
  inputTokens : Option Nat
  outputTokens : Option Nat
  totalTokens : Option Nat
deriving Repr, DecidableEq

/-- `ProviderUsage::new(model_name, usage)` as built at zai.rs line 155. -/
structure ProviderUsage where
  model : String
  usage : Usage
deriving Repr, DecidableEq

/-- Modelled from the spec: the fields of the vendor request object built by
`formats::anthropic::create_request`, which is outside the sources. Per spec
section 4.1 the translator emits the model name, `max_tokens` (documented
default 8192 unless the ModelConfig overrides it), the `system` field only
when non-empty, and the message array mapping each message to its role string
and text content. Spec section 9 leaves tool forwarding open; tools are
forwarded here when the declaration list is non-empty. -/
def request_fields (mc : ModelConfig) (system : String) (messages : List CMessage)
    (tools : List String) : List (String × JVal) :=
  [("model", JVal.str mc.modelName),
   ("max_tokens", JVal.num (mc.maxTokens.getD 8192))]
  ++ (if system = "" then [] else [("system", JVal.str system)])
  ++ [("messages", JVal.arr (messages.map (fun m =>
        JVal.obj [("role", JVal.str m.role.toStr), ("content", JVal.str m.text)])))]
  ++ (if tools.isEmpty then [] else [("tools", JVal.arr (tools.map JVal.str))])

/-- Modelled from the spec: `create_request` builds the payload as one JSON
object from exactly (ModelConfig, system, messages, tools); spec section 4.1
describes it as a pure, fallible translator, so the result is an `Except`. -/
def create_request (mc : ModelConfig) (system : String) (messages : List CMessage)
    (tools : List String) : Except String JVal :=
  Except.ok (JVal.obj (request_fields mc system messages tools))

/-- The streaming-flag insertion that `stream` performs (zai.rs lines 168-171):
`payload.as_object_mut().unwrap().insert("stream", Value::Bool(true))`. On a
non-object payload the real code would panic in `unwrap`; the total function
leaves such a value unchanged, and `create_request_returns_object` shows the
object case is the only reachable one. -/
def insertStream : JVal → JVal
  | JVal.obj fields => JVal.obj (objInsert "stream" (JVal.bool true) fields)
  | v => v

/-- The payload the streaming entry point sends (zai.rs lines 164-171): the
batch payload with the streaming flag inserted. -/
def streaming_payload (mc : ModelConfig) (system : String) (messages : List CMessage)
    (tools : List String) : Except String JVal :=
  (create_request mc system messages tools).map insertStream

/-- An HTTP response as `post` consumes it: its status code and the outcome of
reading its body text (`response.text()` can itself fail). -/
structure HttpResponse where
  status : Nat
  text : Except String String
deriving Repr

/-- `http::StatusCode::is_success`: status in the 2xx range. -/
def statusIsSuccess (status : Nat) : Bool :=
  decide (200 ≤ status) && decide (status < 300)

/-- `ZaiProvider::post` (zai.rs lines 70-92). The transport outcome and the
body parser are passed in; each failure is wrapped in `RequestFailed`, a
non-2xx status yields the formatted status-and-body error, and only a 2xx
status with a parseable body succeeds. The model prints the bare status code
where Rust displays the status value. -/
def post (resp : Except String HttpResponse) (parse : String → Except String JVal) :
    Except ProviderError JVal :=
  match resp with
  | Except.error e => Except.error (ProviderError.RequestFailed e)
  | Except.ok r =>
    match r.text with
    | Except.error e => Except.error (ProviderError.RequestFailed e)
    | Except.ok body =>
      if statusIsSuccess r.status then
        match parse body with
        | Except.error e =>
          Except.error (ProviderError.RequestFailed ("Failed to parse response: " ++ e))
        | Except.ok v => Except.ok v
      else
        Except.error (ProviderError.RequestFailed
          ("API request failed with status " ++ toString r.status ++ ": " ++ body))

/-- A configuration key descriptor (`ConfigKey::new(name, required, secret,
default)`). -/
structure ConfigKey where
  name : String
  required : Bool
  secret : Bool
  default : Option String
deriving Repr, DecidableEq

/-- A supported model with its context-window size (`ModelInfo::new`). -/
structure ModelInfo where
  name : String
  contextLimit : Nat
deriving Repr, DecidableEq

/-- The capability advertisement record
(`ProviderMetadata::with_models(name, display_name, description,
default_model, models, doc_url, config_keys)`). -/
structure ProviderMetadata where
  name : String
  displayName : String
  description : String
  defaultModel : String
  knownModels : List ModelInfo
  docUrl : String
  configKeys : List ConfigKey
deriving Repr, DecidableEq

/-- zai.rs line 23. -/
def ZAI_DEFAULT_MODEL : String := "glm-4.5"

/-- zai.rs line 24. -/
def ZAI_DEFAULT_FAST_MODEL : String := "glm-4.5-air"

/-- zai.rs lines 25-29. -/
def ZAI_KNOWN_MODELS : List (String × Nat) :=
  [("glm-4.6", 200000), ("glm-4.5", 128000), ("glm-4.5-air", 128000)]

/-- zai.rs line 31. -/
def ZAI_DOC_URL : String := "https://z.ai/docs"

/-- `ZaiProvider::metadata` (zai.rs lines 97-115): the known models mapped to
`ModelInfo` and the fixed identity, default model, doc URL and config keys. -/
def metadata : ProviderMetadata :=
  { name := "zai"
    displayName := "Z.ai"
    description := "Z.ai GLM models for coding assistance"
    defaultModel := ZAI_DEFAULT_MODEL
    knownModels := ZAI_KNOWN_MODELS.map (fun p => ModelInfo.mk p.1 p.2)
    docUrl := ZAI_DOC_URL
    configKeys := [ConfigKey.mk "ZAI_API_KEY" true true none,
                   ConfigKey.mk "ZAI_HOST" false false (some "https://api.z.ai"),
                   ConfigKey.mk "ZAI_TIMEOUT" false false (some "600")] }

/-- Modelled from the spec: `ModelConfig::with_fast` lives in `crate::model`,
outside the sources. Spec section 3 gives ModelConfig an optional fast-model
alias; `with_fast` returns the config with that alias set. -/
def with_fast (m : ModelConfig) (f : String) : ModelConfig :=
  { m with fast := some f }

/-- The model-config transformation `ZaiProvider::from_env` applies before
storing the config in the adapter (zai.rs line 43):
`model.with_fast(ZAI_DEFAULT_FAST_MODEL.to_string())`. -/
def from_env_model (model : ModelConfig) : ModelConfig :=
  with_fast model ZAI_DEFAULT_FAST_MODEL

/-- Modelled from the spec: `ProviderRetry::with_retry` is outside the
sources. Per spec sections 4.2 and 8 the invoker performs sequential physical
attempts, numbered from `i`, with `fuel` attempts still allowed including the
current one: a success returns at once; a transient-classified error is
retried while attempts remain; a non-transient error, or the error of the last
allowed attempt, is surfaced as the terminal error. The result is paired with
the total number of physical attempts performed. Fuel 0 degenerates to a
single attempt; `with_retry` is only used with a positive maximum. -/
def runRetry (transient : ProviderError → Bool) (attempt : Nat → Except ProviderError JVal) :
    Nat → Nat → Except ProviderError JVal × Nat
  | i, 0 => (attempt i, i + 1)
  | i, 1 => (attempt i, i + 1)
  | i, fuel + 2 =>
    match attempt i with
    | Except.ok v => (Except.ok v, i + 1)
    | Except.error e =>
      if transient e then runRetry transient attempt (i + 1) (fuel + 1)
      else (Except.error e, i + 1)

/-- Modelled from the spec: the retry loop started at attempt 0 with a
maximum attempt count (spec section 4.2: a maximum attempt count bounds total
retries; exceeding it surfaces the last error). -/
def with_retry (maxAttempts : Nat) (transient : ProviderError → Bool)
    (attempt : Nat → Except ProviderError JVal) : Except ProviderError JVal × Nat :=
  runRetry transient attempt 0 maxAttempts

/-- The control flow of `ZaiProvider::complete_with_model` (zai.rs lines
129-156), with the external collaborators passed in: `logStart` is the outcome
of `RequestLog::start` (propagated by `?` at line 138), `_logError` stands for
the outcome of `log.error`, which the source discards with `let _ =` inside
`inspect_err` (lines 145-147), `logWrite` is the outcome of `log.write`
(propagated by `?` at line 154), `poster` gives the outcome of the physical
POST of each attempt run under the retry policy (lines 139-147), and
`decodeMsg` and `getUsage` stand for `response_to_message` and `get_usage`
(lines 149-152), whose errors are wrapped in `RequestFailed`. The result is
paired with the number of physical POST attempts performed. -/
def complete_with_model (mc : ModelConfig) (system : String) (messages : List CMessage)
    (tools : List String)
    (logStart : Except ProviderError Unit) (_logError : Bool)
    (logWrite : Except ProviderError Unit)
    (maxAttempts : Nat) (transient : ProviderError → Bool)
    (poster : Nat → Except ProviderError JVal)
    (decodeMsg : JVal → Except String CMessage) (getUsage : JVal → Except String Usage) :
    Except ProviderError (CMessage × ProviderUsage) × Nat :=
  match create_request mc system messages tools with
  | Except.error e => (Except.error (ProviderError.RequestFailed e), 0)
  | Except.ok _payload =>
    match logStart with
    | Except.error e => (Except.error e, 0)
    | Except.ok _ =>
      match with_retry maxAttempts transient poster with
      | (Except.error e, n) => (Except.error e, n)
      | (Except.ok json, n) =>
        match decodeMsg json with
        | Except.error e => (Except.error (ProviderError.RequestFailed e), n)
        | Except.ok message =>
          match getUsage json with
          | Except.error e => (Except.error (ProviderError.RequestFailed e), n)
          | Except.ok usage =>
            match logWrite with
            | Except.error e => (Except.error e, n)
            | Except.ok _ =>
              (Except.ok (message, ProviderUsage.mk mc.modelName usage), n)

/-- The pre-stream control flow of `ZaiProvider::stream` (zai.rs lines
158-187): build the payload (`map_err` to `RequestFailed` at line 165), insert
the streaming flag, start the request log (`?` at line 173, propagated),
perform the single physical POST (lines 175-181; a failure is reported through
the discarded `log.error` and propagated), and run
`handle_status_openai_compat` over the response (lines 183-185, same
treatment). `_logError` stands for the discarded outcome of `log.error`. On
success the flagged payload and the open response are returned. The result is
paired with the number of physical POSTs performed. -/
def stream_setup (mc : ModelConfig) (system : String) (messages : List CMessage)
    (tools : List String)
    (logStart : Except ProviderError Unit) (_logError : Bool)
    (postResp : Except ProviderError HttpResponse)
    (handleStatus : HttpResponse → Except ProviderError HttpResponse) :
    Except ProviderError (JVal × HttpResponse) × Nat :=
  match create_request mc system messages tools with
  | Except.error e => (Except.error (ProviderError.RequestFailed e), 0)
  | Except.ok payload =>
    let flagged := insertStream payload
    match logStart with
    | Except.error e => (Except.error e, 0)
    | Except.ok _ =>
      match postResp with
      | Except.error e => (Except.error e, 1)
      | Except.ok resp =>
        match handleStatus resp with
        | Except.error e => (Except.error e, 1)
        | Except.ok response => (Except.ok (flagged, response), 1)

/-- Modelled from the spec: the vendor stream events consumed by
`response_to_streaming_message`, which is outside the sources (spec section 3:
message-start, content-delta, message-delta, message-stop). -/
inductive StreamEvent where
  | messageStart (inputTokens : Nat)
  | contentDelta (text : String)
  | messageDelta (outputTokens : Nat)
  | messageStop
deriving Repr, DecidableEq

/-- The in-progress message accumulator of the streaming decoder (spec
section 4.4: the text built so far and the usage counts captured so far). -/
structure StreamState where
  text : String
  inputTokens : Option Nat
  outputTokens : Option Nat
deriving Repr, DecidableEq

/-- The accumulator before any event arrives. -/
def initState : StreamState := StreamState.mk "" none none

/-- Modelled from the spec: one step of the streaming decoder (spec section
4.4): message-start (re)initializes the accumulator and captures input tokens,
content-delta appends text to the active content block, message-delta records
output tokens, message-stop finalizes without changing the content. -/
def applyEvent : StreamState → StreamEvent → StreamState
  | _, StreamEvent.messageStart i => StreamState.mk "" (some i) none
  | s, StreamEvent.contentDelta t => { s with text := s.text ++ t }
  | s, StreamEvent.messageDelta o => { s with outputTokens := some o }
  | s, StreamEvent.messageStop => s

/-- Modelled from the spec: the snapshots the decoder emits, one after each
event is applied to the accumulator (spec section 4.4 step 4). -/
def emitSnapshots (s : StreamState) : List StreamEvent → List StreamState
  | [] => []
  | e :: es => applyEvent s e :: emitSnapshots (applyEvent s e) es

/-- The full snapshot sequence of one streaming call, starting from the empty
accumulator. -/
def decodeSnapshots (events : List StreamEvent) : List StreamState :=
  emitSnapshots initState events

/-- Whether an event is a message-start (the only event that resets the
accumulated text). -/
def isStart : StreamEvent → Bool
  | StreamEvent.messageStart _ => true
  | _ => false

/-- The concatenation of all content-delta payloads in arrival order. -/
def concatDeltas : List StreamEvent → String
  | [] => ""
  | StreamEvent.contentDelta t :: es => t ++ concatDeltas es
  | _ :: es => concatDeltas es

/-- One string is a prefix of another: some suffix extends the first to the
second. -/
def StrIsPref (s t : String) : Prop := ∃ u, s ++ u = t

/-- The byte length of a Rust `String` whose characters are `s`
(`str::len`). -/
def byteLen (s : List Char) : Nat := (s.map Char.utf8Size).sum

/-- `str::is_char_boundary` over the character list of a UTF-8 string: byte
index 0 is always a boundary, an index inside or past an empty remainder is
not, and otherwise the index is a boundary exactly when it reaches or passes
the first character's encoding and lands on a boundary of the rest. -/
def isCharBoundary : List Char → Nat → Bool
  | _, 0 => true
  | [], _ + 1 => false
  | c :: cs, n + 1 =>
    if c.utf8Size ≤ n + 1 then isCharBoundary cs (n + 1 - c.utf8Size) else false

/-- Drop the first `n` bytes of a UTF-8 string: `some` remainder when byte
index `n` is a character boundary within bounds, `none` (the slicing panic)
otherwise. -/
def dropBytes : List Char → Nat → Option (List Char)
  | s, 0 => some s
  | [], _ + 1 => none
  | c :: cs, n + 1 =>
    if c.utf8Size ≤ n + 1 then dropBytes cs (n + 1 - c.utf8Size) else none

/-- Take the first `n` bytes of a UTF-8 string: `some` prefix when byte index
`n` is a character boundary within bounds, `none` (the slicing panic)
otherwise. -/
def takeBytes : List Char → Nat → Option (List Char)
  | _, 0 => some []
  | [], _ + 1 => none
  | c :: cs, n + 1 =>
    if c.utf8Size ≤ n + 1 then
      (takeBytes cs (n + 1 - c.utf8Size)).map (fun t => c :: t)
    else none

/-- The byte slice `&key[a..b]` of a Rust string: defined exactly when both
ends are character boundaries in bounds, `none` standing for the panic. -/
def byteSlice (s : List Char) (a b : Nat) : Option (List Char) :=
  (dropBytes s a).bind (fun t => takeBytes t (b - a))

/-- The masked API-key display of `handle_config_show` (zai_configure.rs lines
82-94): when the key is longer than 8 bytes it shows
`format!("sk-{}***", &key[3..8])`, whose byte slice panics (`none`) off a
character boundary; otherwise it shows `"sk-***"`. -/
def maskedApiKey (key : List Char) : Option String :=
  if 8 < byteLen key then
    (byteSlice key 3 8).map (fun mid => "sk-" ++ String.mk mid ++ "***")
  else some "sk-***"

theorem objLookup_objInsert_self (k : String) (v : JVal) (fs : List (String × JVal)) :
    objLookup k (objInsert k v fs) = some v := by
  induction fs with
  | nil => simp [objInsert, objLookup]
  | cons p rest ih =>
    obtain ⟨k1, v1⟩ := p
    by_cases h : k1 = k
    · subst h
      simp [objInsert, objLookup]
    · simp [objInsert, objLookup, h, ih]

theorem objLookup_objInsert_ne (k k2 : String) (v : JVal) (fs : List (String × JVal))
    (h : k ≠ k2) : objLookup k (objInsert k2 v fs) = objLookup k fs := by
  induction fs with
  | nil => simp [objInsert, objLookup, Ne.symm h]
  | cons p rest ih =>
    obtain ⟨k1, v1⟩ := p
    by_cases h2 : k1 = k2
    · subst h2
      simp [objInsert, objLookup, Ne.symm h]
    · simp [objInsert, objLookup, h2, ih]

theorem stream_key_absent (mc : ModelConfig) (system : String) (messages : List CMessage)
    (tools : List String) :
    objLookup "stream" (request_fields mc system messages tools) = none := by
  by_cases hs : system = "" <;> by_cases ht : tools.isEmpty <;>
    simp [request_fields, objLookup, hs, ht]

/-- C7: the capability advertisement returns exactly the identity name "zai"
with display name "Z.ai" and its description, the three supported models
glm-4.6 (200000), glm-4.5 (128000) and glm-4.5-air (128000), default model
"glm-4.5", documentation URL "https://z.ai/docs", and the configuration keys
ZAI_API_KEY (required, secret, no default), ZAI_HOST (optional, default
"https://api.z.ai") and ZAI_TIMEOUT (optional, default "600"). -/
theorem metadata_exact :
    metadata = ProviderMetadata.mk "zai" "Z.ai" "Z.ai GLM models for coding assistance"
      "glm-4.5"
      [ModelInfo.mk "glm-4.6" 200000, ModelInfo.mk "glm-4.5" 128000,
       ModelInfo.mk "glm-4.5-air" 128000]
      "https://z.ai/docs"
      [ConfigKey.mk "ZAI_API_KEY" true true none,
       ConfigKey.mk "ZAI_HOST" false false (some "https://api.z.ai"),
       ConfigKey.mk "ZAI_TIMEOUT" false false (some "600")] := rfl

/-- C10: `from_env` always overwrites the fast-model alias of the supplied
ModelConfig with "glm-4.5-air", whatever alias the caller provided, and leaves
every other field of the config unchanged. -/
theorem from_env_forces_fast_model (m : ModelConfig) :
    (from_env_model m).fast = some "glm-4.5-air"
    ∧ (from_env_model m).modelName = m.modelName
    ∧ (from_env_model m).contextLimit = m.contextLimit
    ∧ (from_env_model m).maxTokens = m.maxTokens :=
  ⟨rfl, rfl, rfl, rfl⟩

/-- C8: on every input on which `create_request` succeeds its payload is a
JSON object, so the unconditional `as_object_mut().unwrap()` that `stream`
performs before inserting the streaming flag never panics. -/
theorem create_request_returns_object (mc : ModelConfig) (system : String)
    (messages : List CMessage) (tools : List String) :
    ∃ fields, create_request mc system messages tools = Except.ok (JVal.obj fields) :=
  ⟨request_fields mc system messages tools, rfl⟩

/-- C6: every non-2xx HTTP response received by the batch POST helper `post`
yields a request-failure error whose message carries the status code and the
response body; it is never converted into a success or a default result. -/
theorem post_non2xx_is_error (status : Nat) (body : String)
    (parse : String → Except String JVal)
    (h : statusIsSuccess status = false) :
    post (Except.ok (HttpResponse.mk status (Except.ok body))) parse
      = Except.error (ProviderError.RequestFailed
          ("API request failed with status " ++ toString status ++ ": " ++ body)) := by
  simp [post, h]

/-- C6 witness: `post` at the concrete status 404 with body "not found". -/
theorem post_non2xx_is_error_witness :
    statusIsSuccess 404 = false
    ∧ post (Except.ok (HttpResponse.mk 404 (Except.ok "not found")))
        (fun _ => Except.error "unused")
      = Except.error (ProviderError.RequestFailed
          ("API request failed with status " ++ toString 404 ++ ": " ++ "not found")) :=
  ⟨by decide, post_non2xx_is_error 404 "not found" (fun _ => Except.error "unused") (by decide)⟩

/-- C5: the streaming entry point performs exactly one physical POST per call
and never retries it: the POST count never exceeds one, it is exactly one
whenever the call reaches the POST (the request log started), and a failure of
the POST itself or of the subsequent status handling is surfaced as the call's
error with the count still one. -/
theorem stream_single_post_no_retry (mc : ModelConfig) (system : String)
    (messages : List CMessage) (tools : List String)
    (logStart : Except ProviderError Unit) (b : Bool)
    (postResp : Except ProviderError HttpResponse)
    (handleStatus : HttpResponse → Except ProviderError HttpResponse) :
    (stream_setup mc system messages tools logStart b postResp handleStatus).2 ≤ 1
    ∧ (logStart = Except.ok () →
        (stream_setup mc system messages tools logStart b postResp handleStatus).2 = 1)
    ∧ (∀ e, logStart = Except.ok () → postResp = Except.error e →
        stream_setup mc system messages tools logStart b postResp handleStatus
          = (Except.error e, 1))
    ∧ (∀ e r, logStart = Except.ok () → postResp = Except.ok r →
        handleStatus r = Except.error e →
        stream_setup mc system messages tools logStart b postResp handleStatus
          = (Except.error e, 1)) := by
  refine ⟨?_, ?_, ?_, ?_⟩
  · match logStart with
    | Except.error e => simp [stream_setup, create_request]
    | Except.ok _ =>
      match postResp with
      | Except.error e => simp [stream_setup, create_request]
      | Except.ok r =>
        match h : handleStatus r with
        | Except.error e => simp [stream_setup, create_request, h]
        | Except.ok resp => simp [stream_setup, create_request, h]
  · intro hls
    subst hls
    match postResp with
    | Except.error e => simp [stream_setup, create_request]
    | Except.ok r =>
      match h : handleStatus r with
      | Except.error e => simp [stream_setup, create_request, h]
      | Except.ok resp => simp [stream_setup, create_request, h]
  · intro e hls hpr
    subst hls
    subst hpr
    simp [stream_setup, create_request]
  · intro e r hls hpr hh
    subst hls
    subst hpr
    simp [stream_setup, create_request, hh]

/-- C4: for identical inputs, the payload the streaming entry point sends
differs from the batch payload only by the streaming flag: both payloads are
objects over the same translated fields, every key other than "stream" looks
up identically in the two, the streaming payload carries "stream": true, and
the batch payload has no "stream" key at all. -/
theorem streaming_payload_difference (mc : ModelConfig) (system : String)
    (messages : List CMessage) (tools : List String) :
    create_request mc system messages tools
        = Except.ok (JVal.obj (request_fields mc system messages tools))
    ∧ streaming_payload mc system messages tools
        = Except.ok (JVal.obj (objInsert "stream" (JVal.bool true)
            (request_fields mc system messages tools)))
    ∧ (∀ k, k ≠ "stream" →
        objLookup k (objInsert "stream" (JVal.bool true)
            (request_fields mc system messages tools))
          = objLookup k (request_fields mc system messages tools))
    ∧ objLookup "stream" (objInsert "stream" (JVal.bool true)
        (request_fields mc system messages tools)) = some (JVal.bool true)
    ∧ objLookup "stream" (request_fields mc system messages tools) = none :=
  ⟨rfl, rfl,
   fun k hk => objLookup_objInsert_ne k "stream" (JVal.bool true) _ hk,
   objLookup_objInsert_self "stream" (JVal.bool true) _,
   stream_key_absent mc system messages tools⟩

theorem runRetry_all_transient (transient : ProviderError → Bool)
    (errs : Nat → ProviderError) (h : ∀ i, transient (errs i) = true) :
    ∀ fuel i, runRetry transient (fun j => Except.error (errs j)) i (fuel + 1)
      = (Except.error (errs (i + fuel)), i + fuel + 1) := by
  intro fuel
  induction fuel with
  | zero => intro i; simp [runRetry]
  | succ f ih =>
    intro i
    have hstep : runRetry transient (fun j => Except.error (errs j)) i (f + 2)
        = runRetry transient (fun j => Except.error (errs j)) (i + 1) (f + 1) := by
      simp [runRetry, h i]
    rw [hstep, ih (i + 1)]
    have h1 : i + 1 + f = i + (f + 1) := by omega
    rw [h1]

/-- C2: with a retry policy allowing N attempts (N positive) and a POST that
fails with a transient-classified error on every physical attempt,
`complete_with_model` performs exactly N physical attempts and returns the
error of the N-th attempt as its terminal error. -/
theorem retry_bound_exhaustion (mc : ModelConfig) (system : String)
    (messages : List CMessage) (tools : List String)
    (b : Bool) (logWrite : Except ProviderError Unit)
    (maxAttempts : Nat) (transient : ProviderError → Bool)
    (errs : Nat → ProviderError)
    (decodeMsg : JVal → Except String CMessage) (getUsage : JVal → Except String Usage)
    (hpos : 0 < maxAttempts)
    (htrans : ∀ i, transient (errs i) = true) :
    complete_with_model mc system messages tools (Except.ok ()) b logWrite
        maxAttempts transient (fun i => Except.error (errs i)) decodeMsg getUsage
      = (Except.error (errs (maxAttempts - 1)), maxAttempts) := by
  obtain ⟨m, rfl⟩ : ∃ m, maxAttempts = m + 1 := ⟨maxAttempts - 1, by omega⟩
  have hr := runRetry_all_transient transient errs htrans m 0
  simp only [Nat.zero_add] at hr
  simp [complete_with_model, create_request, with_retry, hr]

/-- C2 witness: three attempts against an always-transient failing POST yield
exactly three physical attempts and the third attempt's error. -/
theorem retry_bound_exhaustion_witness :
    0 < 3
    ∧ complete_with_model (ModelConfig.mk "glm-4.5" none 128000 none) "sys" [] []
        (Except.ok ()) true (Except.ok ()) 3 (fun _ => true)
        (fun i => Except.error (ProviderError.RequestFailed (toString i)))
        (fun _ => Except.error "unused") (fun _ => Except.error "unused")
      = (Except.error (ProviderError.RequestFailed (toString 2)), 3) :=
  ⟨by decide,
   retry_bound_exhaustion (ModelConfig.mk "glm-4.5" none 128000 none) "sys" [] []
     true (Except.ok ()) 3 (fun _ => true)
     (fun i => ProviderError.RequestFailed (toString i))
     (fun _ => Except.error "unused") (fun _ => Except.error "unused")
     (by decide) (fun _ => rfl)⟩

/-- C3 counterexample: a call in which the vendor POST succeeds on the first
attempt and both decoders succeed, but the final `log.write` fails: the caller
receives the logging error instead of the success value, because zai.rs line
154 propagates `log.write`'s failure with `?`. This refutes the claim that a
logging failure never changes the primary result. -/
theorem logging_failure_changes_result_cex :
    (complete_with_model (ModelConfig.mk "glm-4.5" none 128000 none) "sys"
        [CMessage.mk Role.user "hi"] []
        (Except.ok ()) true
        (Except.error (ProviderError.RequestFailed "log write failed"))
        3 (fun _ => true)
        (fun _ => Except.ok (JVal.str "resp"))
        (fun _ => Except.ok (CMessage.mk Role.assistant "OK"))
        (fun _ => Except.ok (Usage.mk (some 5) (some 1) none))).1
      = Except.error (ProviderError.RequestFailed "log write failed") := rfl

/-- C3 amended: failures of the attempt-error logging call (`log.error`,
discarded with `let _ =` in both entry points) are swallowed and never change
the primary result of `complete_with_model` or of the streaming setup; but a
failure of `RequestLog::start` is propagated as the call's error, and a
failure of the final `log.write` is propagated even when the vendor call and
both decoders succeeded. -/
theorem log_error_swallowed_log_write_propagated (mc : ModelConfig) (system : String)
    (messages : List CMessage) (tools : List String)
    (logStart : Except ProviderError Unit) (b b2 : Bool)
    (logWrite : Except ProviderError Unit)
    (maxAttempts : Nat) (transient : ProviderError → Bool)
    (poster : Nat → Except ProviderError JVal)
    (decodeMsg : JVal → Except String CMessage) (getUsage : JVal → Except String Usage)
    (postResp : Except ProviderError HttpResponse)
    (handleStatus : HttpResponse → Except ProviderError HttpResponse) :
    complete_with_model mc system messages tools logStart b logWrite
        maxAttempts transient poster decodeMsg getUsage
      = complete_with_model mc system messages tools logStart b2 logWrite
          maxAttempts transient poster decodeMsg getUsage
    ∧ stream_setup mc system messages tools logStart b postResp handleStatus
      = stream_setup mc system messages tools logStart b2 postResp handleStatus
    ∧ (∀ e, logStart = Except.error e →
        (complete_with_model mc system messages tools logStart b logWrite
            maxAttempts transient poster decodeMsg getUsage).1 = Except.error e)
    ∧ (∀ e json n msg usage, logStart = Except.ok () →
        with_retry maxAttempts transient poster = (Except.ok json, n) →
        decodeMsg json = Except.ok msg → getUsage json = Except.ok usage →
        logWrite = Except.error e →
        (complete_with_model mc system messages tools logStart b logWrite
            maxAttempts transient poster decodeMsg getUsage).1 = Except.error e) := by
  refine ⟨rfl, rfl, ?_, ?_⟩
  · intro e hls
    subst hls
    simp [complete_with_model, create_request]
  · intro e json n msg usage hls hretry hdec husage hlw
    subst hls
    subst hlw
    simp [complete_with_model, create_request, hretry, hdec, husage]

theorem applyEvent_text_extends (s : StreamState) (e : StreamEvent)
    (h : isStart e = false) : StrIsPref s.text (applyEvent s e).text := by
  cases e with
  | messageStart i => simp [isStart] at h
  | contentDelta t => exact ⟨t, rfl⟩
  | messageDelta o => exact ⟨"", String.append_empty s.text⟩
  | messageStop => exact ⟨"", String.append_empty s.text⟩

theorem chain_emitSnapshots (es : List StreamEvent) :
    ∀ s, (∀ e ∈ es, isStart e = false) →
      List.Chain (fun a b => StrIsPref a.text b.text) s (emitSnapshots s es) := by
  induction es with
  | nil => intro s _; exact List.Chain.nil
  | cons e rest ih =>
    intro s h
    have he : isStart e = false := h e (List.mem_cons_self e rest)
    have hrest : ∀ e2 ∈ rest, isStart e2 = false :=
      fun e2 hm => h e2 (List.mem_cons_of_mem e hm)
    simp only [emitSnapshots]
    exact List.Chain.cons (applyEvent_text_extends s e he) (ih (applyEvent s e) hrest)

theorem foldl_applyEvent_text (es : List StreamEvent) :
    ∀ s, (∀ e ∈ es, isStart e = false) →
      (es.foldl applyEvent s).text = s.text ++ concatDeltas es := by
  induction es with
  | nil => intro s _; exact (String.append_empty s.text).symm
  | cons e rest ih =>
    intro s h
    have he : isStart e = false := h e (List.mem_cons_self e rest)
    have hrest : ∀ e2 ∈ rest, isStart e2 = false :=
      fun e2 hm => h e2 (List.mem_cons_of_mem e hm)
    rw [List.foldl_cons, ih (applyEvent s e) hrest]
    cases e with
    | messageStart i => simp [isStart] at he
    | contentDelta t => simp [applyEvent, concatDeltas, String.append_assoc]
    | messageDelta o => simp [applyEvent, concatDeltas]
    | messageStop => simp [applyEvent, concatDeltas]

theorem emitSnapshots_getLast (es : List StreamEvent) :
    ∀ s, es ≠ [] → (emitSnapshots s es).getLast? = some (es.foldl applyEvent s) := by
  induction es with
  | nil => intro s h; exact absurd rfl h
  | cons e rest ih =>
    intro s _
    cases rest with
    | nil => simp [emitSnapshots]
    | cons e2 rest2 =>
      have h2 := ih (applyEvent s e) (List.cons_ne_nil e2 rest2)
      rw [List.foldl_cons]
      calc (emitSnapshots s (e :: e2 :: rest2)).getLast?
          = (emitSnapshots (applyEvent s e) (e2 :: rest2)).getLast? := by
            simp only [emitSnapshots]
            exact List.getLast?_cons_cons
        _ = some ((e2 :: rest2).foldl applyEvent (applyEvent s e)) := h2

/-- C1: in a valid streaming sequence — non-empty, ending in message-stop,
with no accumulator-resetting message-start after the first event — the text
of each emitted snapshot is a prefix of the next emitted snapshot's text, and
the final snapshot's text is the concatenation of all content-delta payloads
in arrival order. -/
theorem streaming_monotonicity (events : List StreamEvent)
    (hne : events ≠ [])
    (hstop : events.getLast? = some StreamEvent.messageStop)
    (hmid : ∀ e ∈ events.tail, isStart e = false) :
    List.Chain' (fun a b => StrIsPref a.text b.text) (decodeSnapshots events)
    ∧ ∃ final, (decodeSnapshots events).getLast? = some final
        ∧ final.text = concatDeltas events := by
  cases events with
  | nil => exact absurd rfl hne
  | cons e0 rest =>
    have hmid2 : ∀ e ∈ rest, isStart e = false := hmid
    constructor
    · show List.Chain' _ (emitSnapshots initState (e0 :: rest))
      simp only [emitSnapshots]
      exact chain_emitSnapshots rest (applyEvent initState e0) hmid2
    · refine ⟨(e0 :: rest).foldl applyEvent initState,
        emitSnapshots_getLast (e0 :: rest) initState (List.cons_ne_nil e0 rest), ?_⟩
      rw [List.foldl_cons, foldl_applyEvent_text rest (applyEvent initState e0) hmid2]
      cases e0 with
      | messageStart i => simp [applyEvent, concatDeltas, String.empty_append]
      | contentDelta t =>
        simp [applyEvent, initState, concatDeltas, String.empty_append]
      | messageDelta o => simp [applyEvent, initState, concatDeltas, String.empty_append]
      | messageStop => simp [applyEvent, initState, concatDeltas, String.empty_append]

/-- The event sequence of spec scenario C. -/
def scenarioC : List StreamEvent :=
  [StreamEvent.messageStart 10, StreamEvent.contentDelta "O", StreamEvent.contentDelta "K",
   StreamEvent.messageDelta 1, StreamEvent.messageStop]

/-- C1 witness: the monotonicity theorem applied to the concrete scenario C
event sequence. -/
theorem streaming_monotonicity_witness :
    scenarioC ≠ []
    ∧ scenarioC.getLast? = some StreamEvent.messageStop
    ∧ (∀ e ∈ scenarioC.tail, isStart e = false)
    ∧ (List.Chain' (fun a b => StrIsPref a.text b.text) (decodeSnapshots scenarioC)
       ∧ ∃ final, (decodeSnapshots scenarioC).getLast? = some final
           ∧ final.text = concatDeltas scenarioC) :=
  ⟨by decide, by decide, by decide,
   streaming_monotonicity scenarioC (by decide) (by decide) (by decide)⟩

theorem dropBytes_of_boundary (s : List Char) :
    ∀ n, isCharBoundary s n = true → ∃ t, dropBytes s n = some t := by
  induction s with
  | nil =>
    intro n h
    cases n with
    | zero => exact ⟨[], rfl⟩
    | succ m => simp [isCharBoundary] at h
  | cons c cs ih =>
    intro n h
    cases n with
    | zero => exact ⟨c :: cs, rfl⟩
    | succ m =>
      simp only [isCharBoundary] at h
      by_cases hle : c.utf8Size ≤ m + 1
      · obtain ⟨t, ht⟩ := ih (m + 1 - c.utf8Size) (by rwa [if_pos hle] at h)
        exact ⟨t, by simp [dropBytes, hle, ht]⟩
      · rw [if_neg hle] at h
        exact absurd h (by simp)

theorem takeBytes_of_boundary (s : List Char) :
    ∀ n, isCharBoundary s n = true → ∃ t, takeBytes s n = some t := by
  induction s with
  | nil =>
    intro n h
    cases n with
    | zero => exact ⟨[], rfl⟩
    | succ m => simp [isCharBoundary] at h
  | cons c cs ih =>
    intro n h
    cases n with
    | zero => exact ⟨[], rfl⟩
    | succ m =>
      simp only [isCharBoundary] at h
      by_cases hle : c.utf8Size ≤ m + 1
      · obtain ⟨t, ht⟩ := ih (m + 1 - c.utf8Size) (by rwa [if_pos hle] at h)
        exact ⟨c :: t, by simp [takeBytes, hle, ht]⟩
      · rw [if_neg hle] at h
        exact absurd h (by simp)

theorem isCharBoundary_dropBytes (s : List Char) :
    ∀ a t (b : Nat), dropBytes s a = some t →
      isCharBoundary s (a + b) = isCharBoundary t b := by
  induction s with
  | nil =>
    intro a t b h
    cases a with
    | zero =>
      have ht : t = [] := by simpa [dropBytes] using h.symm
      subst ht
      simp
    | succ m => simp [dropBytes] at h
  | cons c cs ih =>
    intro a t b h
    cases a with
    | zero =>
      have ht : t = c :: cs := by simpa [dropBytes] using h.symm
      subst ht
      simp
    | succ m =>
      simp only [dropBytes] at h
      by_cases hle : c.utf8Size ≤ m + 1
      · rw [if_pos hle] at h
        have hrec := ih (m + 1 - c.utf8Size) t b h
        have hsucc : m + 1 + b = (m + b) + 1 := by omega
        rw [hsucc]
        simp only [isCharBoundary]
        rw [if_pos (by omega : c.utf8Size ≤ m + b + 1)]
        have harg : m + b + 1 - c.utf8Size = (m + 1 - c.utf8Size) + b := by omega
        rw [harg, hrec]
      · rw [if_neg hle] at h
        cases h

/-- C9 counterexample: a stored key of five two-byte characters has byte
length 10, so it takes the long-key branch, but byte index 3 falls inside a
character: the byte slice `&key[3..8]` is not defined there and the real
`format!("sk-{}***", &key[3..8])` panics. The masked display is therefore not
total over all stored keys. -/
theorem masked_api_key_panics_cex :
    byteLen (List.replicate 5 'α') = 10
    ∧ maskedApiKey (List.replicate 5 'α') = none := ⟨by decide, by decide⟩

/-- C9 amended (corrected): the masked display never panics only for keys on
which byte indices 3 and 8 are character boundaries (every ASCII key among
them): when such a key is longer than 8 bytes the display is "sk-", exactly
the key's bytes at indices 3 through 7, then "***"; when the key is at most 8
bytes long it is "sk-***". On other long keys the byte slicing panics, as the
counterexample shows. -/
theorem masked_api_key_boundary_total (key : List Char) :
    (8 < byteLen key → isCharBoundary key 3 = true → isCharBoundary key 8 = true →
      ∃ mid, byteSlice key 3 8 = some mid
        ∧ maskedApiKey key = some ("sk-" ++ String.mk mid ++ "***"))
    ∧ (byteLen key ≤ 8 → maskedApiKey key = some "sk-***") := by
  constructor
  · intro hlen h3 h8
    obtain ⟨t, ht⟩ := dropBytes_of_boundary key 3 h3
    have hb : isCharBoundary key 8 = isCharBoundary t 5 := by
      have := isCharBoundary_dropBytes key 3 t 5 ht
      rwa [show (3 : Nat) + 5 = 8 from rfl] at this
    obtain ⟨mid, hm⟩ := takeBytes_of_boundary t 5 (hb.symm.trans h8)
    have hslice : byteSlice key 3 8 = some mid := by
      simp [byteSlice, ht]
      exact hm
    refine ⟨mid, hslice, ?_⟩
    unfold maskedApiKey
    rw [if_pos hlen, hslice]
    rfl
  · intro hlen
    unfold maskedApiKey
    rw [if_neg (by omega)]
